import Mathlib

/-!
# analisa-tube: the API client module `frontend/js/api.js`

A shallow embedding of the four asynchronous operations of `api.js`
(`getVideoInfo`, `startVideoAnalysis`, `checkProcessingStatus`,
`saveSummaryAsFile`) and of the parts of the JavaScript runtime they call
(`fetch`, `response.json()`, `JSON.stringify`, `new Error`, `console.error`,
property reads, the `||` operator, `try`/`catch`).

* A JavaScript string is a Lean `String` (a sequence of Unicode scalar values,
  that is a well-formed UTF-16 string).
* The backend is simulated by a function from the arguments of `fetch` to the
  way the returned promise settles.
* An `async` function is a computation that returns how its promise settles
  (fulfilled with a value, or rejected with an error) together with the trace
  of the effects it performed (calls of `fetch`, reads of a response body,
  lines written with `console.error`).
-/

namespace AnalisaTube

/-! ## Values -/

/-- An IEEE-754 binary64 number, kept as its three bit fields. -/
structure JSNumber where
  sign : Bool
  exponent : Fin 2048
  mantissa : Fin 4503599627370496
  deriving DecidableEq

/-- A value produced by parsing JSON text. The members of an object are kept
in property order; a key occurs at most once in an object built by the
runtime, and a property read takes the first member with the key. -/
inductive JSValue where
  | null : JSValue
  | bool (b : Bool) : JSValue
  | num (n : JSNumber) : JSValue
  | str (s : String) : JSValue
  | arr (items : List JSValue) : JSValue
  | obj (members : List (String × JSValue)) : JSValue

/-- An error object: its `name` (the constructor it comes from) and its
`message`. -/
structure JSError where
  name : String
  message : String
  deriving DecidableEq

/-- The parts of the runtime that the language leaves to the implementation or
that are not modelled bit by bit: `Number::toString`, and the texts of the
`TypeError`s raised by a property read on `null` and by a failed conversion
of an object to a primitive. -/
structure Host where
  numberToString : JSNumber → String
  nullReadMessage : String → String
  toPrimitiveMessage : String

/-! ## The runtime -/

/-- `ToBoolean` of a number: `+0`, `-0` and `NaN` are falsy. -/
def JSNumber.toBoolean (n : JSNumber) : Bool :=
  !((n.exponent = 0 ∧ n.mantissa = 0) ∨ (n.exponent = 2047 ∧ n.mantissa ≠ 0))

/-- `ToBoolean` of a value; `none` stands for `undefined`. -/
def toBoolean : Option JSValue → Bool
  | none => false
  | some .null => false
  | some (.bool b) => b
  | some (.num n) => n.toBoolean
  | some (.str s) => s != ""
  | some (.arr _) => true
  | some (.obj _) => true

/-- Own property of an object, by key. -/
def lookupMember (key : String) : List (String × JSValue) → Option JSValue
  | [] => none
  | (k, v) :: rest => if k = key then some v else lookupMember key rest

/-- The `TypeError` raised by reading property `key` of `null`. -/
def nullReadError (h : Host) (key : String) : JSError :=
  ⟨"TypeError", h.nullReadMessage key⟩

/-- The `TypeError` raised when an object has no callable `toString` or
`valueOf` that gives a primitive. -/
def toPrimitiveError (h : Host) : JSError :=
  ⟨"TypeError", h.toPrimitiveMessage⟩

/-- The property read `v.error` on a parsed JSON value: `null` has no
properties and the read throws; on an object it is the own property `error`
(`Object.prototype` has none); on a boolean, a number, a string or an array
it is `undefined`, as no built-in prototype defines `error`. -/
def getError (h : Host) : JSValue → Except JSError (Option JSValue)
  | .null => .error (nullReadError h "error")
  | .obj members => .ok (lookupMember "error" members)
  | _ => .ok none

/-- The operator `a || b` with a string literal on the right. -/
def orElse (a : Option JSValue) (b : String) : JSValue :=
  match a with
  | some v => if toBoolean (some v) then v else .str b
  | none => .str b

mutual
/-- `ToString` of a parsed JSON value. An array is joined with commas
(`Array.prototype.join`); an object gives `[object Object]` unless an own
property `toString` (never callable in parsed JSON) hides
`Object.prototype.toString`, and then the conversion throws. -/
def toStringJS (h : Host) : JSValue → Except JSError String
  | .null => .ok "null"
  | .bool b => .ok (if b then "true" else "false")
  | .num n => .ok (h.numberToString n)
  | .str s => .ok s
  | .arr items => (itemsToStrings h items).map (",".intercalate ·)
  | .obj members =>
    if (lookupMember "toString" members).isSome then .error (toPrimitiveError h)
    else .ok "[object Object]"
/-- The strings that `Array.prototype.join` puts between the separators:
`null` gives the empty string, another element its `ToString`. -/
def itemsToStrings (h : Host) : List JSValue → Except JSError (List String)
  | [] => .ok []
  | .null :: rest => (itemsToStrings h rest).map ("" :: ·)
  | x :: rest =>
    match toStringJS h x with
    | .error e => .error e
    | .ok s => (itemsToStrings h rest).map (s :: ·)
end

/-- The expression `new Error(message)`: the message is `ToString(message)`. -/
def newError (h : Host) (message : JSValue) : Except JSError JSError :=
  (toStringJS h message).map (fun m => ⟨"Error", m⟩)

/-! ## `JSON.stringify` -/

/-- Lower-case hexadecimal digit of a number below 16. -/
def hexDigit (n : Nat) : Char :=
  if n < 10 then Char.ofNat (48 + n) else Char.ofNat (87 + n)

/-- The escape `\uXXXX` of a code unit (`UnicodeEscape`). -/
def unicodeEscape (c : Char) : List Char :=
  ['\\', 'u', hexDigit (c.toNat / 4096 % 16), hexDigit (c.toNat / 256 % 16),
    hexDigit (c.toNat / 16 % 16), hexDigit (c.toNat % 16)]

/-- One code point of `QuoteJSONString`: the seven characters with a short
escape, the other control characters below U+0020 as `\uXXXX`, every other
character as itself. -/
def quoteChar (c : Char) : List Char :=
  if c.toNat = 8 then ['\\', 'b']
  else if c.toNat = 9 then ['\\', 't']
  else if c.toNat = 10 then ['\\', 'n']
  else if c.toNat = 12 then ['\\', 'f']
  else if c.toNat = 13 then ['\\', 'r']
  else if c = '"' then ['\\', '"']
  else if c = '\\' then ['\\', '\\']
  else if c.toNat < 32 then unicodeEscape c
  else [c]

/-- The characters of `QuoteJSONString(s)` between the two quotes. -/
def quoteChars : List Char → List Char
  | [] => []
  | c :: rest => quoteChar c ++ quoteChars rest

/-- The abstract operation `QuoteJSONString`. -/
def quoteJSONString (s : String) : String :=
  ⟨'"' :: (quoteChars s.data ++ ['"'])⟩

/-- A number is finite when its exponent field is not all ones. -/
def JSNumber.isFinite (n : JSNumber) : Bool := n.exponent != 2047

mutual
/-- `JSON.stringify(value)` with no replacer and no indentation, on a value
made of JSON data (no functions, no `undefined`, no `toJSON` method). -/
def JSON.stringify (h : Host) : JSValue → String
  | .null => "null"
  | .bool b => if b then "true" else "false"
  | .num n => if n.isFinite then h.numberToString n else "null"
  | .str s => quoteJSONString s
  | .arr items => "[" ++ ",".intercalate (stringifyItems h items) ++ "]"
  | .obj members => "\x7b" ++ ",".intercalate (stringifyMembers h members) ++ "\x7d"
/-- The serialised elements of an array. -/
def stringifyItems (h : Host) : List JSValue → List String
  | [] => []
  | x :: rest => JSON.stringify h x :: stringifyItems h rest
/-- The serialised members of an object, each `key:value`. -/
def stringifyMembers (h : Host) : List (String × JSValue) → List String
  | [] => []
  | (k, v) :: rest => (quoteJSONString k ++ ":" ++ JSON.stringify h v) :: stringifyMembers h rest
end

/-! ## Reading JSON text back

The grammar of JSON text, for the texts the module sends: an object whose
members are strings, written without insignificant white space. -/

/-- Value of a hexadecimal digit, in either case. -/
def hexValue (c : Char) : Option Nat :=
  if 48 ≤ c.toNat ∧ c.toNat ≤ 57 then some (c.toNat - 48)
  else if 97 ≤ c.toNat ∧ c.toNat ≤ 102 then some (c.toNat - 87)
  else if 65 ≤ c.toNat ∧ c.toNat ≤ 70 then some (c.toNat - 55)
  else none

/-- The character a two-character escape stands for. -/
def escapeTarget (e : Char) : Option Char :=
  if e = '"' then some '"'
  else if e = '\\' then some '\\'
  else if e = '/' then some '/'
  else if e = 'b' then some (Char.ofNat 8)
  else if e = 'f' then some (Char.ofNat 12)
  else if e = 'n' then some (Char.ofNat 10)
  else if e = 'r' then some (Char.ofNat 13)
  else if e = 't' then some (Char.ofNat 9)
  else none

/-- Reads a JSON string after its opening quote: the characters it denotes
and the text that follows the closing quote. A raw control character ends the
reading with `none`, and so does an escape `\uXXXX` of a surrogate, which
denotes no character of a `String`. -/
def readString : List Char → Option (List Char × List Char)
  | [] => none
  | c :: rest =>
    if c = '"' then some ([], rest)
    else if c = '\\' then
      match rest with
      | [] => none
      | e :: rest1 =>
        if e = 'u' then
          match rest1 with
          | a :: b :: c2 :: d :: rest2 =>
            match hexValue a, hexValue b, hexValue c2, hexValue d with
            | some x, some y, some z, some w =>
              if 55296 ≤ 4096 * x + 256 * y + 16 * z + w ∧
                  4096 * x + 256 * y + 16 * z + w ≤ 57343 then none
              else (readString rest2).map
                (fun p => (Char.ofNat (4096 * x + 256 * y + 16 * z + w) :: p.1, p.2))
            | _, _, _, _ => none
          | _ => none
        else
          match escapeTarget e with
          | some ch => (readString rest1).map (fun p => (ch :: p.1, p.2))
          | none => none
    else if c.toNat < 32 then none
    else (readString rest).map (fun p => (c :: p.1, p.2))

/-- Reads the members `"key":"value"` of an object up to the closing brace,
which must end the text. The fuel bounds the number of members. -/
def readMembers : Nat → List Char → Option (List (String × String))
  | 0, _ => none
  | fuel + 1, text =>
    match text with
    | q :: afterQuote =>
      if q = '"' then
        match readString afterQuote with
        | some (key, colon :: q2 :: afterQuote2) =>
          if colon = ':' ∧ q2 = '"' then
            match readString afterQuote2 with
            | some (value, [close]) =>
              if close = '}' then some [(⟨key⟩, ⟨value⟩)] else none
            | some (value, comma :: more) =>
              if comma = ',' then
                (readMembers fuel more).map (fun ms => (⟨key⟩, ⟨value⟩) :: ms)
              else none
            | _ => none
          else none
        | _ => none
      else none
    | [] => none

/-- Decodes the JSON text of an object whose members are strings. -/
def decodeStringObject (text : String) : Option (List (String × String)) :=
  match text.data with
  | open_ :: rest =>
    if open_ = '{' then
      if rest = ['}'] then some [] else readMembers text.length rest
    else none
  | [] => none

/-! ## Fetch and effects -/

/-- The second argument of `fetch`, as the module writes it. -/
structure RequestInit where
  method : String
  headers : List (String × String)
  body : String
  deriving DecidableEq

/-- A response: its `ok` flag and the way `response.json()` settles
(the parsed body, or the error of the failed parse). -/
structure Response where
  ok : Bool
  body : Except JSError JSValue

/-- The simulated backend: how the promise of `fetch(url, init)` settles;
`init` is `none` when `fetch` gets one argument. -/
def Backend := String → Option RequestInit → Except JSError Response

/-- An observable effect of a call. -/
inductive Effect where
  | fetch (url : String) (init : Option RequestInit) : Effect
  | json : Effect
  | consoleError (label : String) (error : JSError) : Effect
  deriving DecidableEq

/-- A finished asynchronous computation: how its promise settled, and the
effects it performed, in order. -/
structure Async (α : Type) where
  outcome : Except JSError α
  trace : List Effect

/-- Sequencing: the second part runs only if the first did not throw. -/
def Async.bind {α β : Type} (x : Async α) (f : α → Async β) : Async β :=
  match x.outcome with
  | .ok a => ⟨(f a).outcome, x.trace ++ (f a).trace⟩
  | .error e => ⟨.error e, x.trace⟩

/-- The statement `try { body } catch (error) { handler }`. -/
def Async.tryCatch {α : Type} (body : Async α) (handler : JSError → Async α) : Async α :=
  match body.outcome with
  | .ok a => ⟨.ok a, body.trace⟩
  | .error e => ⟨(handler e).outcome, body.trace ++ (handler e).trace⟩

instance : Monad Async where
  pure a := ⟨.ok a, []⟩
  bind := Async.bind

instance : MonadExcept JSError Async where
  throw e := ⟨.error e, []⟩
  tryCatch := Async.tryCatch

/-- An expression that may throw, performing no effect. -/
def liftExcept {α : Type} (r : Except JSError α) : Async α := ⟨r, []⟩

/-- The expression `await fetch(url, init)`. -/
def fetch (backend : Backend) (url : String) (init : Option RequestInit) : Async Response :=
  ⟨backend url init, [.fetch url init]⟩

/-- The expression `await response.json()`. -/
def Response.json (response : Response) : Async JSValue :=
  ⟨response.body, [.json]⟩

/-- The statement `console.error(label, error)`. -/
def consoleError (label : String) (error : JSError) : Async Unit :=
  ⟨.ok (), [.consoleError label error]⟩

/-! ## The module `api.js` -/

/-- The constant `API_BASE_URL`. -/
def API_BASE_URL : String := "http://localhost:5000/api"

/-- The function `getVideoInfo(url)`. -/
def getVideoInfo (h : Host) (backend : Backend) (url : String) : Async JSValue := do
  try
    let response ← fetch backend (API_BASE_URL ++ "/video-info")
      (some ⟨"POST", [("Content-Type", "application/json")],
        JSON.stringify h (.obj [("url", .str url)])⟩)
    if !response.ok then
      let errorData ← response.json
      let message := orElse (← liftExcept (getError h errorData))
        "Erro ao obter informações do vídeo"
      throw (← liftExcept (newError h message))
    response.json
  catch error =>
    consoleError "Erro na requisição de informações do vídeo:" error
    throw error

/-- The function `startVideoAnalysis(url)`. -/
def startVideoAnalysis (h : Host) (backend : Backend) (url : String) : Async JSValue := do
  try
    let response ← fetch backend (API_BASE_URL ++ "/analyze")
      (some ⟨"POST", [("Content-Type", "application/json")],
        JSON.stringify h (.obj [("url", .str url)])⟩)
    if !response.ok then
      let errorData ← response.json
      let message := orElse (← liftExcept (getError h errorData))
        "Erro ao iniciar análise do vídeo"
      throw (← liftExcept (newError h message))
    response.json
  catch error =>
    consoleError "Erro ao iniciar análise:" error
    throw error

/-- The function `checkProcessingStatus(jobId)`. -/
def checkProcessingStatus (h : Host) (backend : Backend) (jobId : String) : Async JSValue := do
  try
    let response ← fetch backend (API_BASE_URL ++ "/status/" ++ jobId) none
    if !response.ok then
      let errorData ← response.json
      let message := orElse (← liftExcept (getError h errorData))
        "Erro ao verificar status do processamento"
      throw (← liftExcept (newError h message))
    response.json
  catch error =>
    consoleError "Erro ao verificar status:" error
    throw error

/-- The function `saveSummaryAsFile(summary, videoId)`. -/
def saveSummaryAsFile (h : Host) (backend : Backend) (summary videoId : String) :
    Async JSValue := do
  try
    let response ← fetch backend (API_BASE_URL ++ "/save-summary")
      (some ⟨"POST", [("Content-Type", "application/json")],
        JSON.stringify h (.obj [("summary", .str summary), ("video_id", .str videoId)])⟩)
    if !response.ok then
      let errorData ← response.json
      let message := orElse (← liftExcept (getError h errorData))
        "Erro ao salvar resumo"
      throw (← liftExcept (newError h message))
    response.json
  catch error =>
    consoleError "Erro ao salvar resumo:" error
    throw error

/-! ## The four operations as one family -/

/-- A call of one of the four exported functions, with its arguments. -/
inductive Operation where
  | getVideoInfo (url : String) : Operation
  | startVideoAnalysis (url : String) : Operation
  | checkProcessingStatus (jobId : String) : Operation
  | saveSummaryAsFile (summary videoId : String) : Operation

/-- Running a call against a simulated backend. -/
def Operation.run (h : Host) (backend : Backend) : Operation → Async JSValue
  | .getVideoInfo url => AnalisaTube.getVideoInfo h backend url
  | .startVideoAnalysis url => AnalisaTube.startVideoAnalysis h backend url
  | .checkProcessingStatus jobId => AnalisaTube.checkProcessingStatus h backend jobId
  | .saveSummaryAsFile summary videoId => AnalisaTube.saveSummaryAsFile h backend summary videoId

/-- The first argument of the call of `fetch`. -/
def Operation.url : Operation → String
  | .getVideoInfo _ => "http://localhost:5000/api/video-info"
  | .startVideoAnalysis _ => "http://localhost:5000/api/analyze"
  | .checkProcessingStatus jobId => "http://localhost:5000/api/status/" ++ jobId
  | .saveSummaryAsFile _ _ => "http://localhost:5000/api/save-summary"

/-- The second argument of the call of `fetch`; `none` when there is none. -/
def Operation.init (h : Host) : Operation → Option RequestInit
  | .getVideoInfo url =>
    some ⟨"POST", [("Content-Type", "application/json")],
      JSON.stringify h (.obj [("url", .str url)])⟩
  | .startVideoAnalysis url =>
    some ⟨"POST", [("Content-Type", "application/json")],
      JSON.stringify h (.obj [("url", .str url)])⟩
  | .checkProcessingStatus _ => none
  | .saveSummaryAsFile summary videoId =>
    some ⟨"POST", [("Content-Type", "application/json")],
      JSON.stringify h (.obj [("summary", .str summary), ("video_id", .str videoId)])⟩

/-- The generic message of each function, used when the error payload gives
none. -/
def Operation.fallback : Operation → String
  | .getVideoInfo _ => "Erro ao obter informações do vídeo"
  | .startVideoAnalysis _ => "Erro ao iniciar análise do vídeo"
  | .checkProcessingStatus _ => "Erro ao verificar status do processamento"
  | .saveSummaryAsFile _ _ => "Erro ao salvar resumo"

/-- The text each function puts before the error on the diagnostic channel. -/
def Operation.label : Operation → String
  | .getVideoInfo _ => "Erro na requisição de informações do vídeo:"
  | .startVideoAnalysis _ => "Erro ao iniciar análise:"
  | .checkProcessingStatus _ => "Erro ao verificar status:"
  | .saveSummaryAsFile _ _ => "Erro ao salvar resumo:"

/-! ## Reading a trace -/

/-- The calls of `fetch` in a trace, with their arguments. -/
def fetchCalls : List Effect → List (String × Option RequestInit)
  | [] => []
  | .fetch url init :: rest => (url, init) :: fetchCalls rest
  | _ :: rest => fetchCalls rest

/-- The number of times a response body was read. -/
def jsonReads : List Effect → Nat
  | [] => 0
  | .json :: rest => jsonReads rest + 1
  | _ :: rest => jsonReads rest

/-- The lines written with `console.error`: label and error. -/
def consoleLines : List Effect → List (String × JSError)
  | [] => []
  | .consoleError label error :: rest => (label, error) :: consoleLines rest
  | _ :: rest => consoleLines rest

/-- What a function throws once it has read the body `body` of a response
that is not ok: the error of the failed read, or the error of the property
read, or the error of the conversion of the message, or else the new
`Error`. -/
def thrownOnFailure (h : Host) (fallback : String) (body : Except JSError JSValue) : JSError :=
  match body with
  | .error e => e
  | .ok errorData =>
    match getError h errorData with
    | .error e => e
    | .ok field =>
      match newError h (orElse field fallback) with
      | .error e => e
      | .ok e => e

/-! ## Simulated backends -/

/-- A host with the `TypeError` texts of V8. Its `numberToString` is a
stand-in: no evaluation below converts a number. -/
def sampleHost : Host where
  numberToString := fun _ => "0"
  nullReadMessage := fun key => "Cannot read properties of null (reading '" ++ key ++ "')"
  toPrimitiveMessage := "Cannot convert object to primitive value"

/-- A backend that answers every request with the same response. -/
def respondWith (r : Response) : Backend := fun _ _ => .ok r

/-- A backend that cannot be reached: `fetch` rejects with `e`. -/
def unreachable (e : JSError) : Backend := fun _ _ => .error e

/-! ## Reading back what `QuoteJSONString` writes -/

/-- A hexadecimal digit reads back as its value. -/
theorem hexValue_hexDigit : ∀ k, k < 16 → hexValue (hexDigit k) = some k := by decide

/-- A quote ends the string. -/
theorem readString_quote (rest : List Char) : readString ('"' :: rest) = some ([], rest) := by
  rw [readString.eq_def]
  simp

/-- A two-character escape gives its character. -/
theorem readString_escape (e ch : Char) (text : List Char) (hu : e ≠ 'u')
    (he : escapeTarget e = some ch) :
    readString ('\\' :: e :: text) = (readString text).map (fun p => (ch :: p.1, p.2)) := by
  rw [readString.eq_def]
  simp [hu, he]

/-- A character that needs no escape gives itself. -/
theorem readString_plain (c : Char) (text : List Char) (hq : c ≠ '"') (hb : c ≠ '\\')
    (hlt : ¬ c.toNat < 32) :
    readString (c :: text) = (readString text).map (fun p => (c :: p.1, p.2)) := by
  rw [readString.eq_def]
  simp [hq, hb, hlt]

/-- The escape of a control character gives the character. -/
theorem readString_unicodeEscape (c : Char) (hc : c.toNat < 32) (text : List Char) :
    readString (unicodeEscape c ++ text) =
      (readString text).map (fun p => (c :: p.1, p.2)) := by
  have h1 : c.toNat / 4096 % 16 = 0 := by omega
  have h2 : c.toNat / 256 % 16 = 0 := by omega
  have h3 : c.toNat / 16 % 16 < 16 := by omega
  have h4 : c.toNat % 16 < 16 := by omega
  have h5 : 16 * (c.toNat / 16 % 16) + c.toNat % 16 = c.toNat := by omega
  have h6 : ¬ (55296 ≤ c.toNat ∧ c.toNat ≤ 57343) := by omega
  rw [unicodeEscape, readString.eq_def]
  simp [h1, h2, hexValue_hexDigit _ h3, hexValue_hexDigit _ h4,
    hexValue_hexDigit 0 (by omega), h5, h6, Char.ofNat_toNat]

/-- What `quoteChar` writes for a character reads back as the character. -/
theorem readString_quoteChar (c : Char) (text : List Char) :
    readString (quoteChar c ++ text) = (readString text).map (fun p => (c :: p.1, p.2)) := by
  unfold quoteChar
  split_ifs with h8 h9 h10 h12 h13 hq hb hlt
  · have : c = Char.ofNat 8 := by rw [← h8, Char.ofNat_toNat]
    subst this; exact readString_escape _ _ _ (by decide) (by decide)
  · have : c = Char.ofNat 9 := by rw [← h9, Char.ofNat_toNat]
    subst this; exact readString_escape _ _ _ (by decide) (by decide)
  · have : c = Char.ofNat 10 := by rw [← h10, Char.ofNat_toNat]
    subst this; exact readString_escape _ _ _ (by decide) (by decide)
  · have : c = Char.ofNat 12 := by rw [← h12, Char.ofNat_toNat]
    subst this; exact readString_escape _ _ _ (by decide) (by decide)
  · have : c = Char.ofNat 13 := by rw [← h13, Char.ofNat_toNat]
    subst this; exact readString_escape _ _ _ (by decide) (by decide)
  · subst hq; exact readString_escape _ _ _ (by decide) (by decide)
  · subst hb; exact readString_escape _ _ _ (by decide) (by decide)
  · exact readString_unicodeEscape c hlt text
  · exact readString_plain c text hq hb hlt

/-- Reading a quoted string gives the string back, and stops right after the
closing quote. -/
theorem readString_quoteChars (cs rest : List Char) :
    readString (quoteChars cs ++ '"' :: rest) = some (cs, rest) := by
  induction cs with
  | nil => exact readString_quote rest
  | cons c cs ih =>
    rw [quoteChars, List.append_assoc, readString_quoteChar, ih]
    rfl

/-- The last member of an object, up to the closing brace. -/
theorem readMembers_last (fuel : Nat) (k v : List Char) :
    readMembers (fuel + 1)
        ('"' :: (quoteChars k ++ '"' :: ':' :: '"' :: (quoteChars v ++ ['"', '}']))) =
      some [(⟨k⟩, ⟨v⟩)] := by
  rw [readMembers.eq_def]
  simp [readString_quoteChars]

/-- A member that a comma follows. -/
theorem readMembers_more (fuel : Nat) (k v more : List Char) :
    readMembers (fuel + 1)
        ('"' :: (quoteChars k ++ '"' :: ':' :: '"' :: (quoteChars v ++ '"' :: ',' :: more))) =
      (readMembers fuel more).map (fun ms => (⟨k⟩, ⟨v⟩) :: ms) := by
  rw [readMembers.eq_def]
  simp [readString_quoteChars]
  cases more with
  | nil => cases fuel <;> simp [readMembers]
  | cons m ms => simp

/-- The characters of the text of a one-member object of strings. -/
theorem stringify_one (h : Host) (k v : String) :
    (JSON.stringify h (.obj [(k, .str v)])).data =
      '{' :: '"' :: (quoteChars k.data ++ '"' :: ':' :: '"' :: (quoteChars v.data ++ ['"', '}'])) := by
  simp [JSON.stringify, stringifyMembers, quoteJSONString, String.intercalate,
    String.intercalate.go]

/-- The characters of the text of a two-member object of strings. -/
theorem stringify_two (h : Host) (k1 v1 k2 v2 : String) :
    (JSON.stringify h (.obj [(k1, .str v1), (k2, .str v2)])).data =
      '{' :: '"' :: (quoteChars k1.data ++ '"' :: ':' :: '"' :: (quoteChars v1.data ++
        '"' :: ',' :: '"' :: (quoteChars k2.data ++ '"' :: ':' :: '"' ::
          (quoteChars v2.data ++ ['"', '}'])))) := by
  simp [JSON.stringify, stringifyMembers, quoteJSONString, String.intercalate,
    String.intercalate.go]

/-- Decoding the text of a one-member object of strings gives the member back. -/
theorem decode_stringify_one (h : Host) (k v : String) :
    decodeStringObject (JSON.stringify h (.obj [(k, .str v)])) = some [(k, v)] := by
  have hd := stringify_one h k v
  have hl : (JSON.stringify h (.obj [(k, .str v)])).length =
      (JSON.stringify h (.obj [(k, .str v)])).data.length := rfl
  unfold decodeStringObject
  rw [hl, hd]
  simp [readMembers_last]

/-- Decoding the text of a two-member object of strings gives the members
back, in order. -/
theorem decode_stringify_two (h : Host) (k1 v1 k2 v2 : String) :
    decodeStringObject (JSON.stringify h (.obj [(k1, .str v1), (k2, .str v2)])) =
      some [(k1, v1), (k2, v2)] := by
  have hd := stringify_two h k1 v1 k2 v2
  have hl : (JSON.stringify h (.obj [(k1, .str v1), (k2, .str v2)])).length =
      (JSON.stringify h (.obj [(k1, .str v1), (k2, .str v2)])).data.length := rfl
  unfold decodeStringObject
  rw [hl, hd]
  simp [readMembers_more, readMembers_last]

/-! ## The shape of a call -/

/-- The body shared by the four functions, for any request, fallback message
and label. -/
theorem call_shape (h : Host) (backend : Backend) (url : String) (init : Option RequestInit)
    (fallback label : String) :
    (tryCatch
        (do
          let response ← fetch backend url init
          if !response.ok then
            let errorData ← response.json
            let message := orElse (← liftExcept (getError h errorData)) fallback
            throw (← liftExcept (newError h message))
          response.json)
        (fun error => do
          consoleError label error
          throw error) : Async JSValue) =
      match backend url init with
      | .error e => ⟨.error e, [.fetch url init, .consoleError label e]⟩
      | .ok r =>
        if r.ok then
          match r.body with
          | .ok v => ⟨.ok v, [.fetch url init, .json]⟩
          | .error e => ⟨.error e, [.fetch url init, .json, .consoleError label e]⟩
        else
          ⟨.error (thrownOnFailure h fallback r.body),
            [.fetch url init, .json,
              .consoleError label (thrownOnFailure h fallback r.body)]⟩ := by
  cases hres : backend url init with
  | error e =>
    simp [fetch, bind, Async.bind, tryCatch, tryCatchThe, MonadExcept.tryCatch,
      Async.tryCatch, throw, throwThe, MonadExcept.throw, consoleError, hres]
  | ok r =>
    cases hok : r.ok
    · cases hb : r.body with
      | error e =>
        simp [fetch, bind, Async.bind, tryCatch, tryCatchThe, MonadExcept.tryCatch,
          Async.tryCatch, throw, throwThe, MonadExcept.throw, consoleError, hres, hok, hb,
          Response.json, thrownOnFailure, liftExcept, pure]
      | ok v =>
        cases hg : getError h v with
        | error e =>
          simp [fetch, bind, Async.bind, tryCatch, tryCatchThe, MonadExcept.tryCatch,
            Async.tryCatch, throw, throwThe, MonadExcept.throw, consoleError, hres, hok, hb,
            Response.json, thrownOnFailure, liftExcept, pure, hg]
        | ok field =>
          cases hn : newError h (orElse field fallback) <;>
          simp [fetch, bind, Async.bind, tryCatch, tryCatchThe, MonadExcept.tryCatch,
            Async.tryCatch, throw, throwThe, MonadExcept.throw, consoleError, hres, hok, hb,
            Response.json, thrownOnFailure, liftExcept, pure, hg, hn]
    · cases hb : r.body <;>
      simp [fetch, bind, Async.bind, tryCatch, tryCatchThe, MonadExcept.tryCatch,
        Async.tryCatch, throw, throwThe, MonadExcept.throw, consoleError, hres, hok, hb,
        Response.json, thrownOnFailure, liftExcept, pure]

/-- Every call performs one `fetch`; a rejected `fetch` is logged and
rethrown; an ok response is read once and its body returned, a failed read
being logged and rethrown; a response that is not ok is read once and the
call throws, after logging, what `thrownOnFailure` gives. -/
theorem run_eq (h : Host) (backend : Backend) (op : Operation) :
    op.run h backend =
      match backend op.url (op.init h) with
      | .error e =>
        ⟨.error e, [.fetch op.url (op.init h), .consoleError op.label e]⟩
      | .ok r =>
        if r.ok then
          match r.body with
          | .ok v => ⟨.ok v, [.fetch op.url (op.init h), .json]⟩
          | .error e =>
            ⟨.error e, [.fetch op.url (op.init h), .json, .consoleError op.label e]⟩
        else
          ⟨.error (thrownOnFailure h op.fallback r.body),
            [.fetch op.url (op.init h), .json,
              .consoleError op.label (thrownOnFailure h op.fallback r.body)]⟩ := by
  cases op with
  | getVideoInfo url =>
    have hu : API_BASE_URL ++ "/video-info" = "http://localhost:5000/api/video-info" := by
      decide
    simp only [Operation.run, Operation.url, Operation.init, Operation.label,
      Operation.fallback, getVideoInfo, hu]
    exact call_shape h backend _ _ _ _
  | startVideoAnalysis url =>
    have hu : API_BASE_URL ++ "/analyze" = "http://localhost:5000/api/analyze" := by decide
    simp only [Operation.run, Operation.url, Operation.init, Operation.label,
      Operation.fallback, startVideoAnalysis, hu]
    exact call_shape h backend _ _ _ _
  | checkProcessingStatus jobId =>
    have hu : API_BASE_URL ++ "/status/" = "http://localhost:5000/api/status/" := by decide
    simp only [Operation.run, Operation.url, Operation.init, Operation.label,
      Operation.fallback, checkProcessingStatus, hu]
    exact call_shape h backend _ _ _ _
  | saveSummaryAsFile summary videoId =>
    have hu : API_BASE_URL ++ "/save-summary" = "http://localhost:5000/api/save-summary" := by
      decide
    simp only [Operation.run, Operation.url, Operation.init, Operation.label,
      Operation.fallback, saveSummaryAsFile, hu]
    exact call_shape h backend _ _ _ _

/-- Every call performs one `fetch`, with the request of the operation. -/
theorem fetchCalls_run (h : Host) (backend : Backend) (op : Operation) :
    fetchCalls (op.run h backend).trace = [(op.url, op.init h)] := by
  rw [run_eq]
  cases backend op.url (op.init h) with
  | error e => simp [fetchCalls]
  | ok r => cases hok : r.ok <;> cases hb : r.body <;> simp [fetchCalls, hok, hb]

/-- A call reads the body of the response at most once. -/
theorem jsonReads_run (h : Host) (backend : Backend) (op : Operation) :
    jsonReads (op.run h backend).trace ≤ 1 := by
  rw [run_eq]
  cases backend op.url (op.init h) with
  | error e => simp [jsonReads]
  | ok r => cases hok : r.ok <;> cases hb : r.body <;> simp [jsonReads, hok, hb]

/-- The body that `getVideoInfo` and `startVideoAnalysis` send. -/
theorem stringify_url (h : Host) (url : String) :
    JSON.stringify h (.obj [("url", .str url)]) =
      "\x7b\"url\":" ++ quoteJSONString url ++ "\x7d" := by
  have hk : quoteChars ['u', 'r', 'l'] = ['u', 'r', 'l'] := by decide
  apply String.ext
  simp [JSON.stringify, stringifyMembers, quoteJSONString, String.intercalate,
    String.intercalate.go, hk]

/-- The body that `saveSummaryAsFile` sends. -/
theorem stringify_summary (h : Host) (summary videoId : String) :
    JSON.stringify h (.obj [("summary", .str summary), ("video_id", .str videoId)]) =
      "\x7b\"summary\":" ++ quoteJSONString summary ++ ",\"video_id\":" ++
        quoteJSONString videoId ++ "\x7d" := by
  have hs : quoteChars ['s', 'u', 'm', 'm', 'a', 'r', 'y'] =
      ['s', 'u', 'm', 'm', 'a', 'r', 'y'] := by decide
  have hv : quoteChars ['v', 'i', 'd', 'e', 'o', '_', 'i', 'd'] =
      ['v', 'i', 'd', 'e', 'o', '_', 'i', 'd'] := by decide
  apply String.ext
  simp [JSON.stringify, stringifyMembers, quoteJSONString, String.intercalate,
    String.intercalate.go, hs, hv]

/-! ## Properties of the module -/

/-- C1: for each of the four operations, when `fetch` gives a response whose
`ok` flag is true and whose body parses as the JSON value `B`, the call
resolves, and its result is `B` itself. -/
theorem ok_response_resolves_with_body (h : Host) (backend : Backend) (op : Operation)
    (r : Response) (B : JSValue) (hfetch : backend op.url (op.init h) = .ok r)
    (hok : r.ok = true) (hbody : r.body = .ok B) :
    (op.run h backend).outcome = .ok B := by
  rw [run_eq, hfetch]
  simp [hok, hbody]

/-- An ok response with the body of a created job, given to `startVideoAnalysis`. -/
theorem ok_response_resolves_with_body_witness :
    (Operation.run sampleHost (respondWith ⟨true, .ok (.obj [("job_id", .str "42")])⟩)
        (.startVideoAnalysis "https://youtu.be/abc")).outcome =
      .ok (.obj [("job_id", .str "42")]) :=
  ok_response_resolves_with_body sampleHost
    (respondWith ⟨true, .ok (.obj [("job_id", .str "42")])⟩)
    (.startVideoAnalysis "https://youtu.be/abc") ⟨true, .ok (.obj [("job_id", .str "42")])⟩
    (.obj [("job_id", .str "42")]) rfl rfl rfl

/-- C2, as amended: for each of the four operations and every string `X`, when
`fetch` gives a response that is not ok and whose body is the JSON object with
the single member `error` of value `X`, the call fails with an `Error` whose
message is `X` if `X` is not empty, and the generic message of the operation
if `X` is empty. -/
theorem error_field_becomes_message (h : Host) (backend : Backend) (op : Operation)
    (r : Response) (X : String)
    (hfetch : backend op.url (op.init h) = .ok r) (hok : r.ok = false)
    (hbody : r.body = .ok (.obj [("error", .str X)])) :
    (X ≠ "" → (op.run h backend).outcome = .error ⟨"Error", X⟩) ∧
    (X = "" → (op.run h backend).outcome = .error ⟨"Error", op.fallback⟩) := by
  rw [run_eq, hfetch]
  constructor
  · intro hX
    simp [hok, hbody, thrownOnFailure, getError, lookupMember, orElse, toBoolean, hX, newError,
      toStringJS, Except.map]
  · intro hX
    simp [hok, hbody, thrownOnFailure, getError, lookupMember, orElse, toBoolean, hX, newError,
      toStringJS, Except.map]

/-- A response that is not ok, with an error payload, given to `getVideoInfo`. -/
theorem error_field_becomes_message_witness :
    (Operation.run sampleHost
        (respondWith ⟨false, .ok (.obj [("error", .str "URL inválida")])⟩)
        (.getVideoInfo "https://youtu.be/abc")).outcome =
      .error ⟨"Error", "URL inválida"⟩ :=
  (error_field_becomes_message sampleHost
    (respondWith ⟨false, .ok (.obj [("error", .str "URL inválida")])⟩)
    (.getVideoInfo "https://youtu.be/abc") ⟨false, .ok (.obj [("error", .str "URL inválida")])⟩
    "URL inválida" rfl rfl rfl).1 (by decide)

/-- C2, counterexample: when the body of a response that is not ok is the
object whose member `error` is the empty string, `getVideoInfo` fails with
its generic message, not with the empty message. -/
theorem empty_error_field_gives_fallback :
    (Operation.run sampleHost (respondWith ⟨false, .ok (.obj [("error", .str "")])⟩)
        (.getVideoInfo "https://youtu.be/abc")).outcome =
      .error ⟨"Error", "Erro ao obter informações do vídeo"⟩ ∧
    ¬ ∃ e, (Operation.run sampleHost (respondWith ⟨false, .ok (.obj [("error", .str "")])⟩)
        (.getVideoInfo "https://youtu.be/abc")).outcome = .error e ∧ e.message = "" := by
  have hrun : (Operation.run sampleHost (respondWith ⟨false, .ok (.obj [("error", .str "")])⟩)
      (.getVideoInfo "https://youtu.be/abc")).outcome =
      .error ⟨"Error", "Erro ao obter informações do vídeo"⟩ := rfl
  refine ⟨hrun, ?_⟩
  rintro ⟨e, he, hm⟩
  rw [hrun] at he
  cases he
  revert hm
  decide

/-- C3, as amended: for each of the four operations, when `fetch` gives a
response that is not ok and whose body cannot be parsed, so that
`response.json()` fails with an error `e`, the call fails with `e` itself,
the error of the failed parse; the generic message is not used. -/
theorem unparsable_error_body_rethrows_parse_error (h : Host) (backend : Backend)
    (op : Operation) (r : Response) (e : JSError)
    (hfetch : backend op.url (op.init h) = .ok r) (hok : r.ok = false)
    (hbody : r.body = .error e) :
    (op.run h backend).outcome = .error e := by
  rw [run_eq, hfetch]
  simp [hok, hbody, thrownOnFailure]

/-- A response that is not ok and has an empty body, given to
`startVideoAnalysis`. -/
theorem unparsable_error_body_rethrows_parse_error_witness :
    (Operation.run sampleHost
        (respondWith ⟨false, .error ⟨"SyntaxError", "Unexpected end of JSON input"⟩⟩)
        (.startVideoAnalysis "https://youtu.be/abc")).outcome =
      .error ⟨"SyntaxError", "Unexpected end of JSON input"⟩ :=
  unparsable_error_body_rethrows_parse_error sampleHost
    (respondWith ⟨false, .error ⟨"SyntaxError", "Unexpected end of JSON input"⟩⟩)
    (.startVideoAnalysis "https://youtu.be/abc")
    ⟨false, .error ⟨"SyntaxError", "Unexpected end of JSON input"⟩⟩
    ⟨"SyntaxError", "Unexpected end of JSON input"⟩ rfl rfl rfl

/-- C3, counterexample: when the body of a response that is not ok cannot be
parsed, `checkProcessingStatus` fails with the `SyntaxError` of the parse, and
not with an error that carries its generic message. -/
theorem unparsable_error_body_not_fallback :
    (Operation.run sampleHost
        (respondWith ⟨false, .error ⟨"SyntaxError", "Unexpected token '<'"⟩⟩)
        (.checkProcessingStatus "42")).outcome =
      .error ⟨"SyntaxError", "Unexpected token '<'"⟩ ∧
    ¬ ∃ e, (Operation.run sampleHost
        (respondWith ⟨false, .error ⟨"SyntaxError", "Unexpected token '<'"⟩⟩)
        (.checkProcessingStatus "42")).outcome = .error e ∧
      e.message = "Erro ao verificar status do processamento" := by
  have hrun : (Operation.run sampleHost
      (respondWith ⟨false, .error ⟨"SyntaxError", "Unexpected token '<'"⟩⟩)
      (.checkProcessingStatus "42")).outcome =
      .error ⟨"SyntaxError", "Unexpected token '<'"⟩ := rfl
  refine ⟨hrun, ?_⟩
  rintro ⟨e, he, hm⟩
  rw [hrun] at he
  cases he
  revert hm
  decide

/-- C4, as amended: for each of the four operations, when `fetch` gives a
response that is not ok and whose body parses as a JSON value other than
`null` that has no member `error` (an object without the key `error`, or a
boolean, a number, a string or an array), the call fails with an `Error` that
carries the generic message of the operation. -/
theorem missing_error_field_gives_fallback (h : Host) (backend : Backend) (op : Operation)
    (r : Response) (v : JSValue) (hfetch : backend op.url (op.init h) = .ok r)
    (hok : r.ok = false) (hbody : r.body = .ok v) (hnull : v ≠ .null)
    (hfield : ∀ members, v = .obj members → lookupMember "error" members = none) :
    (op.run h backend).outcome = .error ⟨"Error", op.fallback⟩ := by
  rw [run_eq, hfetch]
  cases v with
  | null => exact absurd rfl hnull
  | obj members =>
    simp [hok, hbody, thrownOnFailure, getError, hfield members rfl, orElse, newError,
      toStringJS, Except.map]
  | _ =>
    simp [hok, hbody, thrownOnFailure, getError, orElse, newError, toStringJS, Except.map]

/-- A response that is not ok, whose payload has a member `detail` only, given
to `saveSummaryAsFile`. -/
theorem missing_error_field_gives_fallback_witness :
    (Operation.run sampleHost
        (respondWith ⟨false, .ok (.obj [("detail", .str "not found")])⟩)
        (.saveSummaryAsFile "# Resumo" "abc")).outcome =
      .error ⟨"Error", "Erro ao salvar resumo"⟩ :=
  missing_error_field_gives_fallback sampleHost
    (respondWith ⟨false, .ok (.obj [("detail", .str "not found")])⟩)
    (.saveSummaryAsFile "# Resumo" "abc") ⟨false, .ok (.obj [("detail", .str "not found")])⟩
    (.obj [("detail", .str "not found")]) rfl rfl rfl (by simp)
    (by intro members hm; cases hm; rfl)

/-- C4, counterexample: when the body of a response that is not ok parses as
`null`, the read of `errorData.error` throws, and `saveSummaryAsFile` fails
with that `TypeError`, not with an error that carries its generic message. -/
theorem null_error_body_throws_type_error :
    (Operation.run sampleHost (respondWith ⟨false, .ok .null⟩)
        (.saveSummaryAsFile "# Resumo" "abc")).outcome =
      .error ⟨"TypeError", "Cannot read properties of null (reading 'error')"⟩ ∧
    ¬ ∃ e, (Operation.run sampleHost (respondWith ⟨false, .ok .null⟩)
        (.saveSummaryAsFile "# Resumo" "abc")).outcome = .error e ∧
      e.message = "Erro ao salvar resumo" := by
  have hrun : (Operation.run sampleHost (respondWith ⟨false, .ok .null⟩)
      (.saveSummaryAsFile "# Resumo" "abc")).outcome =
      .error ⟨"TypeError", "Cannot read properties of null (reading 'error')"⟩ := rfl
  refine ⟨hrun, ?_⟩
  rintro ⟨e, he, hm⟩
  rw [hrun] at he
  cases he
  revert hm
  decide

/-- C5: for each of the four operations and every error `E`, when `fetch`
itself fails with `E`, the call fails, and the error it fails with is `E`. -/
theorem transport_failure_is_rethrown (h : Host) (backend : Backend) (op : Operation)
    (E : JSError) (hfetch : backend op.url (op.init h) = .error E) :
    (op.run h backend).outcome = .error E := by
  rw [run_eq, hfetch]

/-- A backend that cannot be reached, asked by `checkProcessingStatus`. -/
theorem transport_failure_is_rethrown_witness :
    (Operation.run sampleHost (unreachable ⟨"TypeError", "Failed to fetch"⟩)
        (.checkProcessingStatus "42")).outcome =
      .error ⟨"TypeError", "Failed to fetch"⟩ :=
  transport_failure_is_rethrown sampleHost (unreachable ⟨"TypeError", "Failed to fetch"⟩)
    (.checkProcessingStatus "42") ⟨"TypeError", "Failed to fetch"⟩ rfl

/-- C6: for every string `url` and every backend, `startVideoAnalysis(url)`
calls `fetch` once, with the address `http://localhost:5000/api/analyze`,
the method `POST`, the header `Content-Type: application/json` and, as body,
the JSON text of the object whose single member `url` has the value `url`;
decoding that body gives `url` back; for `https://youtu.be/abc` the body is
the text shown; `getVideoInfo(url)` sends the same request to
`http://localhost:5000/api/video-info`. -/
theorem url_requests_are_exact (h : Host) (backend : Backend) (url : String) :
    fetchCalls (startVideoAnalysis h backend url).trace =
      [("http://localhost:5000/api/analyze",
        some ⟨"POST", [("Content-Type", "application/json")],
          "\x7b\"url\":" ++ quoteJSONString url ++ "\x7d"⟩)] ∧
    fetchCalls (getVideoInfo h backend url).trace =
      [("http://localhost:5000/api/video-info",
        some ⟨"POST", [("Content-Type", "application/json")],
          "\x7b\"url\":" ++ quoteJSONString url ++ "\x7d"⟩)] ∧
    decodeStringObject ("\x7b\"url\":" ++ quoteJSONString url ++ "\x7d") = some [("url", url)] ∧
    fetchCalls (startVideoAnalysis h backend "https://youtu.be/abc").trace =
      [("http://localhost:5000/api/analyze",
        some ⟨"POST", [("Content-Type", "application/json")],
          "\x7b\"url\":\"https://youtu.be/abc\"\x7d"⟩)] := by
  have hs := fun u => fetchCalls_run h backend (.startVideoAnalysis u)
  have hg := fetchCalls_run h backend (.getVideoInfo url)
  simp only [Operation.run, Operation.url, Operation.init, stringify_url] at hs hg
  have hq : "\x7b\"url\":" ++ quoteJSONString "https://youtu.be/abc" ++ "\x7d" =
      "\x7b\"url\":\"https://youtu.be/abc\"\x7d" := by decide
  refine ⟨hs url, hg, ?_, ?_⟩
  · rw [← stringify_url h url]; exact decode_stringify_one h "url" url
  · rw [hs, hq]

/-- C7: for every string `jobId` and every backend,
`checkProcessingStatus(jobId)` calls `fetch` once, with one argument (no
method, no headers, no body, hence a GET): the text
`http://localhost:5000/api/status/` followed by `jobId` as it is; for the job
`42` it is `http://localhost:5000/api/status/42`. -/
theorem status_request_is_exact (h : Host) (backend : Backend) (jobId : String) :
    fetchCalls (checkProcessingStatus h backend jobId).trace =
      [("http://localhost:5000/api/status/" ++ jobId, none)] ∧
    fetchCalls (checkProcessingStatus h backend "42").trace =
      [("http://localhost:5000/api/status/42", none)] := by
  have hs := fun j => fetchCalls_run h backend (.checkProcessingStatus j)
  simp only [Operation.run, Operation.url, Operation.init] at hs
  have hq : "http://localhost:5000/api/status/" ++ "42" =
      "http://localhost:5000/api/status/42" := by decide
  refine ⟨hs jobId, ?_⟩
  rw [hs, hq]

/-- C8: for all strings `summary` and `videoId` and every backend,
`saveSummaryAsFile(summary, videoId)` calls `fetch` once, with the address
`http://localhost:5000/api/save-summary`, the method `POST`, the header
`Content-Type: application/json` and, as body, the JSON text of the object
with the two members `summary` and `video_id`, in that order; decoding the
body gives `summary` under `summary` and `videoId` under `video_id`. -/
theorem save_request_is_exact (h : Host) (backend : Backend) (summary videoId : String) :
    fetchCalls (saveSummaryAsFile h backend summary videoId).trace =
      [("http://localhost:5000/api/save-summary",
        some ⟨"POST", [("Content-Type", "application/json")],
          "\x7b\"summary\":" ++ quoteJSONString summary ++ ",\"video_id\":" ++
            quoteJSONString videoId ++ "\x7d"⟩)] ∧
    decodeStringObject ("\x7b\"summary\":" ++ quoteJSONString summary ++ ",\"video_id\":" ++
        quoteJSONString videoId ++ "\x7d") =
      some [("summary", summary), ("video_id", videoId)] := by
  have hs := fetchCalls_run h backend (.saveSummaryAsFile summary videoId)
  simp only [Operation.run, Operation.url, Operation.init, stringify_summary] at hs
  refine ⟨hs, ?_⟩
  rw [← stringify_summary h summary videoId]
  exact decode_stringify_two h "summary" summary "video_id" videoId

/-- C9: for each of the four operations and every backend, every failure is
written once with `console.error`, under the label of the operation, and the
caller receives that same failure unchanged: the error `fetch` rejected with;
the error `response.json()` failed with, whether the response is ok or not;
for a response that is not ok whose body parsed, the error thrown by the read
of `errorData.error`, or by the conversion of the message in `new Error`, or
the new `Error` itself. In each case the line written holds the label and
that very error and the call fails with it. A call that succeeds has written
nothing, and a call succeeds only when `fetch` gave a response that is ok and
whose body could be parsed. -/
theorem failure_logged_once_and_rethrown (h : Host) (backend : Backend) (op : Operation) :
    (∀ E, backend op.url (op.init h) = .error E →
      (op.run h backend).outcome = .error E ∧
        consoleLines (op.run h backend).trace = [(op.label, E)]) ∧
    (∀ r e, backend op.url (op.init h) = .ok r → r.body = .error e →
      (op.run h backend).outcome = .error e ∧
        consoleLines (op.run h backend).trace = [(op.label, e)]) ∧
    (∀ r v e, backend op.url (op.init h) = .ok r → r.ok = false → r.body = .ok v →
      getError h v = .error e →
      (op.run h backend).outcome = .error e ∧
        consoleLines (op.run h backend).trace = [(op.label, e)]) ∧
    (∀ r v field e, backend op.url (op.init h) = .ok r → r.ok = false → r.body = .ok v →
      getError h v = .ok field → newError h (orElse field op.fallback) = .error e →
      (op.run h backend).outcome = .error e ∧
        consoleLines (op.run h backend).trace = [(op.label, e)]) ∧
    (∀ r v field e, backend op.url (op.init h) = .ok r → r.ok = false → r.body = .ok v →
      getError h v = .ok field → newError h (orElse field op.fallback) = .ok e →
      (op.run h backend).outcome = .error e ∧
        consoleLines (op.run h backend).trace = [(op.label, e)]) ∧
    (∀ r v, backend op.url (op.init h) = .ok r → r.ok = true → r.body = .ok v →
      (op.run h backend).outcome = .ok v ∧ consoleLines (op.run h backend).trace = []) ∧
    (match (op.run h backend).outcome with
      | .error e => consoleLines (op.run h backend).trace = [(op.label, e)]
      | .ok _ => consoleLines (op.run h backend).trace = []) ∧
    ((∃ v, (op.run h backend).outcome = .ok v) ↔
      ∃ r v, backend op.url (op.init h) = .ok r ∧ r.ok = true ∧ r.body = .ok v) := by
  have hrun := run_eq h backend op
  refine ⟨?_, ?_, ?_, ?_, ?_, ?_, ?_⟩
  · intro E hfetch
    rw [hrun, hfetch]
    simp [consoleLines]
  · intro r e hfetch hbody
    rw [hrun, hfetch]
    cases hok : r.ok <;> simp [consoleLines, hok, hbody, thrownOnFailure]
  · intro r v e hfetch hok hbody hget
    rw [hrun, hfetch]
    simp [consoleLines, hok, hbody, thrownOnFailure, hget]
  · intro r v field e hfetch hok hbody hget hnew
    rw [hrun, hfetch]
    simp [consoleLines, hok, hbody, thrownOnFailure, hget, hnew]
  · intro r v field e hfetch hok hbody hget hnew
    rw [hrun, hfetch]
    simp [consoleLines, hok, hbody, thrownOnFailure, hget, hnew]
  · intro r v hfetch hok hbody
    rw [hrun, hfetch]
    simp [consoleLines, hok, hbody]
  · rw [hrun]
    cases backend op.url (op.init h) with
    | error e => simp [consoleLines]
    | ok r => cases hok : r.ok <;> cases hb : r.body <;> simp [consoleLines, hok, hb]

/-- A backend that cannot be reached, asked by `getVideoInfo`: the error of
`fetch` is what is written and what the caller receives. -/
theorem failure_logged_once_and_rethrown_witness :
    (Operation.run sampleHost (unreachable ⟨"TypeError", "Failed to fetch"⟩)
        (.getVideoInfo "https://youtu.be/abc")).outcome =
      .error ⟨"TypeError", "Failed to fetch"⟩ ∧
    consoleLines (Operation.run sampleHost (unreachable ⟨"TypeError", "Failed to fetch"⟩)
        (.getVideoInfo "https://youtu.be/abc")).trace =
      [("Erro na requisição de informações do vídeo:", ⟨"TypeError", "Failed to fetch"⟩)] :=
  (failure_logged_once_and_rethrown sampleHost (unreachable ⟨"TypeError", "Failed to fetch"⟩)
    (.getVideoInfo "https://youtu.be/abc")).1 ⟨"TypeError", "Failed to fetch"⟩ rfl

/-- C10: for each of the four operations and every backend, a call invokes
`fetch` once and reads the body of the response at most once. -/
theorem one_fetch_at_most_one_read (h : Host) (backend : Backend) (op : Operation) :
    (fetchCalls (op.run h backend).trace).length = 1 ∧
      jsonReads (op.run h backend).trace ≤ 1 := by
  rw [fetchCalls_run]
  exact ⟨rfl, jsonReads_run h backend op⟩

end AnalisaTube
